import Mathlib

/-!
Verification of the gesture-recognition and particle-lifecycle core of the
MudrasNoni repository, shallowly embedded from `src/unnamed/part_001`
(classes `MediaPipeHandTracker` and `ParticleSystem`).

Geometry runs over `ℝ` because the source uses `Math.sqrt`; state mutation
(`this.previousHands`, `this.gestureState`, `this.particles`) is embedded as
explicit state passing.
-/

/-- A MediaPipe landmark: `{x, y, z}` as consumed by `calculateDistance`. -/
structure Point3D where
  x : ℝ
  y : ℝ
  z : ℝ

/-- A hand is the array of landmark points handed to the detector. -/
abbrev Hand := List Point3D

instance : Inhabited Point3D := ⟨⟨0, 0, 0⟩⟩

/-- `calculateDistance(point1, point2)`: `sqrt(dx*dx + dy*dy + dz*dz)`. -/
noncomputable def calculateDistance (point1 point2 : Point3D) : ℝ :=
  let dx := point1.x - point2.x
  let dy := point1.y - point2.y
  let dz := point1.z - point2.z
  Real.sqrt (dx * dx + dy * dy + dz * dz)

/-- `calculateHandCenter(landmarks)`: componentwise sum over the landmarks
divided by the landmark count. -/
noncomputable def calculateHandCenter (landmarks : Hand) : Point3D :=
  ⟨(landmarks.map Point3D.x).sum / landmarks.length,
   (landmarks.map Point3D.y).sum / landmarks.length,
   (landmarks.map Point3D.z).sum / landmarks.length⟩

/-- `calculateHandMovement(currentHand, previousHand)`: sum of point-wise
distances over the index-aligned pairs (the loop runs to the shorter length,
as `zipWith` does) divided by `currentHand.length`. The JS null guards have
no counterpart here because Lean lists cannot be null. -/
noncomputable def calculateHandMovement (currentHand previousHand : Hand) : ℝ :=
  (List.zipWith calculateDistance currentHand previousHand).sum / currentHand.length

/-- The `this.previousHands = { left, right }` record stored across frames. -/
structure PrevHands where
  left : Hand
  right : Hand

/-- `calculateHandStability(leftHand, rightHand)` with the hidden
`this.previousHands` made an explicit input/output: first-ever call returns
the neutral 0.5 and stores the observation; later calls average the two
hands' movements and return `max(0, 1 - avgMovement * 10)`, always
overwriting the stored observation. -/
noncomputable def calculateHandStability (leftHand rightHand : Hand)
    (previousHands : Option PrevHands) : ℝ × Option PrevHands :=
  match previousHands with
  | none => (0.5, some ⟨leftHand, rightHand⟩)
  | some prev =>
      let leftMovement := calculateHandMovement leftHand prev.left
      let rightMovement := calculateHandMovement rightHand prev.right
      let avgMovement := (leftMovement + rightMovement) / 2
      (max 0 (1 - avgMovement * 10), some ⟨leftHand, rightHand⟩)

/-- The pure tail of `detectBasicGesture` (source lines computing `isClose`,
`isStable`, `detected` and the confidence score from the three scalar
metrics): returns the `detected` flag and `Math.min(confidence, 1.0)`. -/
noncomputable def classifyCore (wristDistance centerDistance stability : ℝ) : Bool × ℝ :=
  let isClose := wristDistance < 0.25 ∧ centerDistance < 0.20
  let isStable := stability > 0.7
  if isClose ∧ isStable then
    let proximityScore := max 0 (1 - wristDistance / 0.25)
    let confidence := proximityScore * 0.7 + stability * 0.3
    (true, min confidence 1)
  else
    (false, min 0 1)

/-- The `metrics` record of a gesture result. -/
structure GestureMetrics where
  wristDistance : ℝ
  centerDistance : ℝ
  stability : ℝ

/-- Result record of `detectBasicGesture`; `metrics` is `none` on the
wrong-hand-count branch, which returns no `metrics` field. -/
structure GestureResult where
  detected : Bool
  confidence : ℝ
  metrics : Option GestureMetrics
  reason : String

/-- `detectBasicGesture(hands)` with `this.previousHands` passed explicitly.
The wrong-hand-count branch returns `detected=false, confidence=0` and does
not touch the stability store; otherwise the wrist distance, center distance
and stability feed `classifyCore`. -/
noncomputable def detectBasicGesture (hands : List Hand)
    (previousHands : Option PrevHands) : GestureResult × Option PrevHands :=
  if hands.length = 2 then
    let leftHand := hands.getD 0 []
    let rightHand := hands.getD 1 []
    let wristDistance := calculateDistance (leftHand.getD 0 default) (rightHand.getD 0 default)
    let leftCenter := calculateHandCenter leftHand
    let rightCenter := calculateHandCenter rightHand
    let centerDistance := calculateDistance leftCenter rightCenter
    let st := calculateHandStability leftHand rightHand previousHands
    let dc := classifyCore wristDistance centerDistance st.1
    ({ detected := dc.1
       confidence := dc.2
       metrics := some ⟨wristDistance, centerDistance, st.1⟩
       reason := if dc.1 then "Hands positioned for gesture"
                 else "Hands too far apart or unstable" }, st.2)
  else
    ({ detected := false, confidence := 0, metrics := none,
       reason := "Need exactly 2 hands" }, previousHands)

/-- A landmark at the origin, used for concrete witness frames. -/
def originPoint : Point3D := ⟨0, 0, 0⟩

/-- A one-point hand held at the origin. -/
def handZero : Hand := [originPoint]

/-- A two-hand frame with both hands at the origin. -/
def handsPair : List Hand := [handZero, handZero]

/-- The stability store after a frame of `handsPair`. -/
def prevZero : PrevHands := ⟨handZero, handZero⟩

/-- Definition following the spec's words (Stability Tracker, §4.1): a
slot's stillness is `clamp(1 - avgMovement × 10, 0, 1)` computed against
that slot's own previous observation. Kept for comparison with the source's
`calculateHandStability`. -/
noncomputable def specSlotStillness (current previous : Hand) : ℝ :=
  min 1 (max 0 (1 - calculateHandMovement current previous * 10))

/-- Definition following the spec's words (§4.2 step 3): the classifier's
stability input as the arithmetic mean of the two per-slot stillness
scores. -/
noncomputable def specStability (leftHand rightHand : Hand) (prev : PrevHands) : ℝ :=
  (specSlotStillness leftHand prev.left + specSlotStillness rightHand prev.right) / 2

/-- A one-point hand displaced 0.2 along x from the origin. -/
def handFar : Hand := [⟨0.2, 0, 0⟩]

/-- The `this.gestureState` record. `lastTrigger` is `none` when the JS
object carries no `lastTrigger` property (reads as `undefined`). -/
structure GestureState where
  detected : Bool
  confidence : ℝ
  metrics : Option GestureMetrics
  lastUpdate : ℤ
  lastTrigger : Option ℤ

/-- The mutable tracker state read and written by `processGestures`. -/
structure TrackerState where
  gestureState : GestureState
  previousHands : Option PrevHands

/-- `processGestures()` as a state transition; the returned flag records
whether `triggerTigerConstellation` was called this frame. On a two-hand
frame the source assigns a fresh object literal to `this.gestureState`; that
literal has no `lastTrigger` property, so the field is `none` here. The
cooldown test `!lastTrigger || now - lastTrigger > 3000` is true for an
absent property and also for a stored timestamp of exactly 0 (JS falsiness),
hence the `t = 0` disjunct. -/
noncomputable def processGestures (hands : List Hand) (now : ℤ)
    (st : TrackerState) : TrackerState × Bool :=
  if hands.length = 2 then
    let r := detectBasicGesture hands st.previousHands
    let gs : GestureState :=
      { detected := r.1.detected, confidence := r.1.confidence,
        metrics := r.1.metrics, lastUpdate := now, lastTrigger := none }
    if r.1.detected = true ∧ r.1.confidence > 0.8 then
      match gs.lastTrigger with
      | none =>
          ({ gestureState := { gs with lastTrigger := some now },
             previousHands := r.2 }, true)
      | some t =>
          if t = 0 ∨ now - t > 3000 then
            ({ gestureState := { gs with lastTrigger := some now },
               previousHands := r.2 }, true)
          else
            ({ gestureState := gs, previousHands := r.2 }, false)
    else
      ({ gestureState := gs, previousHands := r.2 }, false)
  else
    ({ gestureState := ⟨false, 0, none, now, none⟩,
       previousHands := st.previousHands }, false)

/-- The tracker state built in the constructor (construction time taken
as 0): gesture not detected, no metrics, no stored hands. -/
def initialTracker : TrackerState :=
  ⟨⟨false, 0, none, 0, none⟩, none⟩

/-- The particle life phases: `'spawning' -> 'floating' -> 'dying'`. -/
inductive Phase where
  | spawning
  | floating
  | dying
deriving DecidableEq

/-- A particle as built in `spawnTigerConstellation`. Lifecycle fields
(`age`, `maxAge`, `alpha`, `size`) are rationals; kinematic fields are reals
because the update step uses `Math.sin`/`Math.cos` and spawn uses
`Math.PI`. -/
structure Particle where
  id : ℕ
  x : ℝ
  y : ℝ
  targetX : ℝ
  targetY : ℝ
  size : ℚ
  color : String
  alpha : ℚ
  velocityX : ℝ
  velocityY : ℝ
  rotationSpeed : ℝ
  rotation : ℝ
  age : ℚ
  maxAge : ℚ
  phase : Phase

/-- The phase recomputed from `age` and `maxAge` each tick (the if-chain in
`updateParticles`). -/
def phaseOf (age maxAge : ℚ) : Phase :=
  if age < 500 then Phase.spawning
  else if age < maxAge - 1000 then Phase.floating
  else Phase.dying

/-- The alpha computed from the recomputed phase (the switch in
`updateParticles`). -/
def alphaOf (age maxAge : ℚ) : ℚ :=
  match phaseOf age maxAge with
  | Phase.spawning => min 1 (age / 500)
  | Phase.floating => 1
  | Phase.dying => max 0 (1 - (age - (maxAge - 1000)) / 1000)

/-- Order of the phases along a particle's life, for the no-regression
statement. -/
def phaseRank : Phase → ℕ
  | Phase.spawning => 0
  | Phase.floating => 1
  | Phase.dying => 2

/-- The per-particle body of the `updateParticles` filter callback: age
advance, phase recomputation, phase-based alpha, oscillatory velocity
perturbation, position update, 0.98 damping, 0.02 attraction toward the
target, rotation advance. -/
noncomputable def updateParticle (deltaTime : ℚ) (p : Particle) : Particle :=
  let age := p.age + deltaTime
  let phase : Phase :=
    if age < 500 then Phase.spawning
    else if age < p.maxAge - 1000 then Phase.floating
    else Phase.dying
  let alpha : ℚ :=
    match phase with
    | Phase.spawning => min 1 (age / 500)
    | Phase.floating => 1
    | Phase.dying => max 0 (1 - (age - (p.maxAge - 1000)) / 1000)
  let time : ℝ := (age : ℝ) * 0.001
  let vX1 := p.velocityX + Real.sin (time * 2 + p.id) * 0.02
  let vY1 := p.velocityY + Real.cos (time * 1.5 + p.id) * 0.02
  let x := p.x + vX1
  let y := p.y + vY1
  let vX2 := vX1 * 0.98
  let vY2 := vY1 * 0.98
  let vX3 := vX2 + (p.targetX - x) * 0.02
  let vY3 := vY2 + (p.targetY - y) * 0.02
  { p with age := age, phase := phase, alpha := alpha, x := x, y := y,
           velocityX := vX3, velocityY := vY3,
           rotation := p.rotation + p.rotationSpeed }

/-- `updateParticles(deltaTime)`: the JS `filter` callback mutates each
particle and then keeps it iff `age < maxAge`, which is map-then-filter. -/
noncomputable def updateParticles (deltaTime : ℚ) (particles : List Particle) :
    List Particle :=
  (particles.map (updateParticle deltaTime)).filter
    (fun p => decide (p.age < p.maxAge))

/-- A normalized template anchor point. -/
structure Pt2 where
  x : ℚ
  y : ℚ

/-- `generateTigerSilhouette()`: the 43 normalized anchor points (20 head
outline, 6 ears, 12 body outline, 5 detail points). -/
def generateTigerSilhouette : List Pt2 :=
  [⟨0.5, 0.3⟩, ⟨0.52, 0.28⟩, ⟨0.55, 0.27⟩,
   ⟨0.58, 0.29⟩, ⟨0.6, 0.32⟩, ⟨0.61, 0.35⟩,
   ⟨0.6, 0.38⟩, ⟨0.58, 0.41⟩, ⟨0.55, 0.43⟩,
   ⟨0.52, 0.44⟩, ⟨0.5, 0.45⟩, ⟨0.48, 0.44⟩,
   ⟨0.45, 0.43⟩, ⟨0.42, 0.41⟩, ⟨0.4, 0.38⟩,
   ⟨0.39, 0.35⟩, ⟨0.4, 0.32⟩, ⟨0.42, 0.29⟩,
   ⟨0.45, 0.27⟩, ⟨0.48, 0.28⟩,
   ⟨0.45, 0.25⟩, ⟨0.43, 0.22⟩, ⟨0.47, 0.24⟩,
   ⟨0.55, 0.25⟩, ⟨0.57, 0.22⟩, ⟨0.53, 0.24⟩,
   ⟨0.5, 0.45⟩, ⟨0.48, 0.5⟩, ⟨0.46, 0.55⟩,
   ⟨0.45, 0.6⟩, ⟨0.44, 0.65⟩, ⟨0.46, 0.7⟩,
   ⟨0.5, 0.72⟩, ⟨0.54, 0.7⟩, ⟨0.56, 0.65⟩,
   ⟨0.55, 0.6⟩, ⟨0.54, 0.55⟩, ⟨0.52, 0.5⟩,
   ⟨0.47, 0.35⟩, ⟨0.53, 0.35⟩,
   ⟨0.5, 0.38⟩,
   ⟨0.48, 0.41⟩, ⟨0.52, 0.41⟩]

/-- `this.tigerTemplate = this.generateTigerSilhouette()` in the
constructor. -/
def tigerTemplate : List Pt2 := generateTigerSilhouette

/-- One `Math.random()` draw per randomized particle property, in source
call order. -/
structure RandVals where
  offX : ℚ
  offY : ℚ
  sizeR : ℚ
  colorR : ℚ
  velX : ℚ
  velY : ℚ
  rotS : ℚ
  rotR : ℚ
  life : ℚ

/-- `getRandomTigerColor()`: the weighted-selection loop over weights
`[0.3, 0.25, 0.2, 0.15, 0.08, 0.02]`, unrolled, with the `tigerColors[0]`
fallback. -/
def getRandomTigerColor (r : ℚ) : String :=
  if r - 0.3 ≤ 0 then "#FF6B35"
  else if r - 0.3 - 0.25 ≤ 0 then "#FF8C42"
  else if r - 0.3 - 0.25 - 0.2 ≤ 0 then "#FF5722"
  else if r - 0.3 - 0.25 - 0.2 - 0.15 ≤ 0 then "#FFD700"
  else if r - 0.3 - 0.25 - 0.2 - 0.15 - 0.08 ≤ 0 then "#FFA000"
  else if r - 0.3 - 0.25 - 0.2 - 0.15 - 0.08 - 0.02 ≤ 0 then "#2C1810"
  else "#FF6B35"

/-- State owned by the `ParticleSystem`. -/
structure ParticleSystemState where
  particles : List Particle
  isActive : Bool

/-- The `tigerTemplate.forEach((point, index) => ...)` particle-creation
loop of `spawnTigerConstellation`. -/
noncomputable def spawnParticles (screenCenterX screenCenterY particleScale : ℝ)
    (rand : ℕ → RandVals) : ℕ → List Pt2 → List Particle
  | _, [] => []
  | index, point :: rest =>
      let rv := rand index
      let screenX := screenCenterX + ((point.x : ℝ) - 0.5) * particleScale
      let screenY := screenCenterY + ((point.y : ℝ) - 0.5) * particleScale
      let offsetX : ℚ := (rv.offX - 0.5) * 20
      let offsetY : ℚ := (rv.offY - 0.5) * 20
      { id := index, x := screenX + (offsetX : ℝ), y := screenY + (offsetY : ℝ),
        targetX := screenX, targetY := screenY,
        size := 3 + rv.sizeR * 4,
        color := getRandomTigerColor rv.colorR,
        alpha := 0,
        velocityX := (((rv.velX - 0.5) * 2 : ℚ) : ℝ),
        velocityY := (((rv.velY - 0.5) * 2 : ℚ) : ℝ),
        rotationSpeed := (((rv.rotS - 0.5) * 0.1 : ℚ) : ℝ),
        rotation := (rv.rotR : ℝ) * Real.pi * 2,
        age := 0, maxAge := 5000 + rv.life * 3000,
        phase := Phase.spawning } ::
        spawnParticles screenCenterX screenCenterY particleScale rand (index + 1) rest

/-- `spawnTigerConstellation(centerX, centerY, scale)`: discards the
current particle set (`this.particles = []`), resolves the screen center
(the JS `centerX || width/2` default is falsy at 0), scales, creates one
particle per template point, and activates the system. -/
noncomputable def spawnTigerConstellation (canvasWidth canvasHeight : ℝ)
    (centerX centerY scale : ℝ) (rand : ℕ → RandVals)
    (st : ParticleSystemState) : ParticleSystemState :=
  let screenCenterX := if centerX = 0 then canvasWidth / 2 else centerX
  let screenCenterY := if centerY = 0 then canvasHeight / 2 else centerY
  let particleScale := scale * min canvasWidth canvasHeight * 0.3
  { particles := spawnParticles screenCenterX screenCenterY particleScale rand 0 tigerTemplate,
    isActive := true }

/-- A concrete freshly spawned particle for the particle witnesses. -/
noncomputable def particleZero : Particle :=
  ⟨0, 0, 0, 0, 0, 3, "#FF6B35", 0, 0, 0, 0, 0, 0, 5000, Phase.spawning⟩

/-- Claim C2: every input with a hand count other than 2 (zero hands, one
hand, or more than two) returns `detected=false`, `confidence=0` and the
untouched stability store — the single wrong-hand-count branch, so zero-hand
and one-hand inputs produce identical results; the function is total, so no
exception can occur. -/
theorem detect_wrong_hand_count (hands : List Hand) (previousHands : Option PrevHands)
    (h : hands.length ≠ 2) :
    detectBasicGesture hands previousHands =
      ({ detected := false, confidence := 0, metrics := none,
         reason := "Need exactly 2 hands" }, previousHands) := by
  simp [detectBasicGesture, h]

/-- Witness for C2 at the concrete empty input. -/
theorem detect_wrong_hand_count_witness :
    ([] : List Hand).length ≠ 2 ∧
      detectBasicGesture [] none =
        ({ detected := false, confidence := 0, metrics := none,
           reason := "Need exactly 2 hands" }, none) :=
  ⟨by decide, detect_wrong_hand_count [] none (by decide)⟩

/-- The detection flag of `classifyCore` is exactly the conjunction of the
proximity gate and the stability gate. -/
lemma classifyCore_fst (wd cd s : ℝ) :
    (classifyCore wd cd s).1 = true ↔ (wd < 0.25 ∧ cd < 0.20) ∧ s > 0.7 := by
  simp only [classifyCore]
  split_ifs with h <;> simp [h]

/-- When not detected, `classifyCore` returns confidence `min 0 1 = 0`. -/
lemma classifyCore_snd_not_detected (wd cd s : ℝ)
    (h : (classifyCore wd cd s).1 = false) : (classifyCore wd cd s).2 = 0 := by
  simp only [classifyCore] at *
  split_ifs at h ⊢ with hc
  norm_num

/-- When detected, the confidence equals the clamped weighted sum of the
proximity score and the stability. -/
lemma classifyCore_snd_detected (wd cd s : ℝ)
    (h : (classifyCore wd cd s).1 = true) :
    (classifyCore wd cd s).2 =
      min 1 (max 0 (max 0 (1 - wd / 0.25) * 0.7 + s * 0.3)) := by
  simp only [classifyCore] at *
  split_ifs at h ⊢ with hc
  have hs : s > 0.7 := hc.2
  have hp : (0:ℝ) ≤ max 0 (1 - wd / 0.25) := le_max_left _ _
  have hf : (0:ℝ) ≤ max 0 (1 - wd / 0.25) * 0.7 + s * 0.3 := by nlinarith
  simp only
  rw [max_eq_right hf, min_comm]

/-- Detection forces the confidence strictly above 0.21: the stability gate
gives `s > 0.7`, the proximity score is non-negative, and `min · 1` cannot
pull the value below 0.21. -/
lemma classifyCore_snd_gt (wd cd s : ℝ)
    (h : (classifyCore wd cd s).1 = true) : (classifyCore wd cd s).2 > 0.21 := by
  simp only [classifyCore] at *
  split_ifs at h ⊢ with hc
  have hs : s > 0.7 := hc.2
  have hp : (0:ℝ) ≤ max 0 (1 - wd / 0.25) := le_max_left _ _
  simp only
  refine lt_min ?_ (by norm_num)
  nlinarith

/-- Claim C5: with the center distance and stability held constant, the
confidence returned by `classifyCore` is monotonically non-increasing in the
wrist distance over `wristDistance ≥ 0` (including the drop to 0 when the
proximity gate fails), and the confidence is 0 whenever `detected = false`. -/
theorem confidence_antitone_in_wrist_distance :
    (∀ cd s wd₁ wd₂ : ℝ, 0 ≤ wd₁ → wd₁ ≤ wd₂ →
      (classifyCore wd₂ cd s).2 ≤ (classifyCore wd₁ cd s).2) ∧
    (∀ wd cd s : ℝ, (classifyCore wd cd s).1 = false →
      (classifyCore wd cd s).2 = 0) := by
  constructor
  · intro cd s wd₁ wd₂ hnn hle
    simp only [classifyCore]
    split_ifs with h₂ h₁ h₁
    · simp only
      have h1 : 1 - wd₂ / 0.25 ≤ 1 - wd₁ / 0.25 := by
        have : wd₁ / 0.25 ≤ wd₂ / 0.25 :=
          (div_le_div_iff_of_pos_right (by norm_num)).mpr hle
        linarith
      have h2 : max 0 (1 - wd₂ / 0.25) ≤ max 0 (1 - wd₁ / 0.25) :=
        max_le_max le_rfl h1
      have h3 : max 0 (1 - wd₂ / 0.25) * 0.7 + s * 0.3 ≤
          max 0 (1 - wd₁ / 0.25) * 0.7 + s * 0.3 := by nlinarith
      exact min_le_min h3 le_rfl
    · exact absurd ⟨⟨lt_of_le_of_lt hle h₂.1.1, h₂.1.2⟩, h₂.2⟩ h₁
    · simp only
      have hs : s > 0.7 := h₁.2
      have hp : (0:ℝ) ≤ max 0 (1 - wd₁ / 0.25) := le_max_left _ _
      have : (0:ℝ) ≤ max 0 (1 - wd₁ / 0.25) * 0.7 + s * 0.3 := by nlinarith
      have h0 : min (0:ℝ) 1 = 0 := by norm_num
      rw [h0]
      exact le_min this (by norm_num)
    · exact le_rfl
  · intro wd cd s h
    exact classifyCore_snd_not_detected wd cd s h

/-- Witness for C5 at wrist distances 0.1 ≤ 0.3 with the second past the
proximity gate (so its confidence is 0). -/
theorem confidence_antitone_in_wrist_distance_witness :
    (0:ℝ) ≤ 0.1 ∧ (0.1:ℝ) ≤ 0.3 ∧
      (classifyCore 0.3 0.1 0.8).2 ≤ (classifyCore 0.1 0.1 0.8).2 ∧
      (classifyCore 0.3 0.1 0.8).1 = false ∧ (classifyCore 0.3 0.1 0.8).2 = 0 := by
  have hfalse : (classifyCore 0.3 0.1 0.8).1 = false := by
    simp only [classifyCore]
    rw [if_neg]
    norm_num
  exact ⟨by norm_num, by norm_num,
    confidence_antitone_in_wrist_distance.1 0.1 0.8 0.1 0.3 (by norm_num) (by norm_num),
    hfalse, confidence_antitone_in_wrist_distance.2 0.3 0.1 0.8 hfalse⟩

lemma calculateDistance_self (p : Point3D) : calculateDistance p p = 0 := by
  simp [calculateDistance]

lemma eval_detect_first :
    detectBasicGesture handsPair none =
      ({ detected := false, confidence := 0, metrics := some ⟨0, 0, 0.5⟩,
         reason := "Hands too far apart or unstable" }, some prevZero) := by
  have hcls : classifyCore 0 0 0.5 = (false, 0) := by
    simp only [classifyCore]
    rw [if_neg (by norm_num)]
    norm_num
  simp [detectBasicGesture, handsPair, handZero, prevZero,
    calculateHandStability, calculateDistance_self, hcls]

lemma eval_detect_second :
    detectBasicGesture handsPair (some prevZero) =
      ({ detected := true, confidence := 1, metrics := some ⟨0, 0, 1⟩,
         reason := "Hands positioned for gesture" }, some prevZero) := by
  have hcls : classifyCore 0 0 1 = (true, 1) := by
    simp only [classifyCore]
    rw [if_pos (by norm_num)]
    norm_num
  simp [detectBasicGesture, handsPair, handZero, prevZero, calculateHandStability,
    calculateHandMovement, calculateDistance_self, hcls]

/-- Claim C4: on every two-hand classification with `detected = true` the
returned confidence equals `max(0, 1 - wristDistance/0.25) * 0.7 +
stability * 0.3` clamped into `[0,1]` (the lower clamp is vacuous because the
operands are non-negative, and the source applies `Math.min(·, 1)`), and on
every classification with `detected = false` the returned confidence is 0. -/
theorem confidence_formula (hands : List Hand) (previousHands : Option PrevHands) :
    ((detectBasicGesture hands previousHands).1.detected = false →
      (detectBasicGesture hands previousHands).1.confidence = 0) ∧
    (∀ m, (detectBasicGesture hands previousHands).1.metrics = some m →
      (detectBasicGesture hands previousHands).1.detected = true →
      (detectBasicGesture hands previousHands).1.confidence =
        min 1 (max 0 (max 0 (1 - m.wristDistance / 0.25) * 0.7 + m.stability * 0.3))) := by
  by_cases hl : hands.length = 2
  · constructor
    · intro h
      simp only [detectBasicGesture, if_pos hl] at h ⊢
      exact classifyCore_snd_not_detected _ _ _ h
    · intro m hm hd
      simp only [detectBasicGesture, if_pos hl, Option.some.injEq] at hm hd ⊢
      subst hm
      exact classifyCore_snd_detected _ _ _ hd
  · rw [detect_wrong_hand_count hands previousHands hl]
    exact ⟨fun _ => rfl, fun m hm => by cases hm⟩

/-- Witness for C4 at the all-origin two-hand frame with a stored previous
observation, where the gesture is detected with confidence 1. -/
theorem confidence_formula_witness :
    (detectBasicGesture handsPair (some prevZero)).1.metrics = some ⟨0, 0, 1⟩ ∧
    (detectBasicGesture handsPair (some prevZero)).1.detected = true ∧
    (detectBasicGesture handsPair (some prevZero)).1.confidence =
      min 1 (max 0 (max 0 (1 - (0:ℝ) / 0.25) * 0.7 + 1 * 0.3)) := by
  have hm : (detectBasicGesture handsPair (some prevZero)).1.metrics = some ⟨0, 0, 1⟩ := by
    rw [eval_detect_second]
  have hd : (detectBasicGesture handsPair (some prevZero)).1.detected = true := by
    rw [eval_detect_second]
  exact ⟨hm, hd, (confidence_formula handsPair (some prevZero)).2 ⟨0, 0, 1⟩ hm hd⟩

/-- Claim C10: every classification result with `detected = true` has
confidence strictly greater than 0.21: the stability gate gives
`stability > 0.7`, so the stability term alone exceeds `0.7 * 0.3 = 0.21`,
the proximity term is non-negative, and `Math.min(·, 1)` cannot push the
value below 0.21. -/
theorem detected_confidence_above (hands : List Hand) (previousHands : Option PrevHands)
    (h : (detectBasicGesture hands previousHands).1.detected = true) :
    (detectBasicGesture hands previousHands).1.confidence > 0.21 := by
  by_cases hl : hands.length = 2
  · simp only [detectBasicGesture, if_pos hl] at h ⊢
    exact classifyCore_snd_gt _ _ _ h
  · rw [detect_wrong_hand_count hands previousHands hl] at h
    cases h

/-- Witness for C10 at the all-origin two-hand frame with a stored previous
observation. -/
theorem detected_confidence_above_witness :
    (detectBasicGesture handsPair (some prevZero)).1.detected = true ∧
    (detectBasicGesture handsPair (some prevZero)).1.confidence > 0.21 := by
  have hd : (detectBasicGesture handsPair (some prevZero)).1.detected = true := by
    rw [eval_detect_second]
  exact ⟨hd, detected_confidence_above handsPair (some prevZero) hd⟩

lemma calculateDistance_far : calculateDistance ⟨0.2, 0, 0⟩ originPoint = 0.2 := by
  have h : calculateDistance ⟨0.2, 0, 0⟩ originPoint = Real.sqrt (0.2 * 0.2) := by
    simp only [calculateDistance, originPoint]
    norm_num
  rw [h, Real.sqrt_mul_self (by norm_num)]

lemma movement_zero : calculateHandMovement handZero handZero = 0 := by
  simp [calculateHandMovement, handZero, calculateDistance_self]

lemma movement_far : calculateHandMovement handFar handZero = 0.2 := by
  simp [calculateHandMovement, handFar, handZero, calculateDistance_far]

/-- Counterexample to C3 as stated: with the left hand still and the right
hand displaced by 0.2, the source's stability is
`max(0, 1 - ((0 + 0.2)/2) × 10) = 0`, while the mean of the per-slot
clamped stillness scores is `(1 + 0)/2 = 0.5`. The source clamps once after
averaging the two movements; the claim clamps per slot before averaging. -/
theorem stability_not_mean_of_slot_stillness :
    (calculateHandStability handZero handFar (some prevZero)).1 ≠
      specStability handZero handFar prevZero := by
  have h1 : (calculateHandStability handZero handFar (some prevZero)).1 = 0 := by
    simp only [calculateHandStability, prevZero, movement_zero, movement_far]
    norm_num
  have h2 : specStability handZero handFar prevZero = 0.5 := by
    simp only [specStability, specSlotStillness, prevZero, movement_zero, movement_far]
    norm_num [max_def, min_def]
  rw [h1, h2]
  norm_num

/-- The average hand movement is non-negative: it is a sum of square roots
divided by a list length. -/
lemma calculateHandMovement_nonneg (c p : Hand) : 0 ≤ calculateHandMovement c p := by
  have h : ∀ (c p : Hand), 0 ≤ (List.zipWith calculateDistance c p).sum := by
    intro c
    induction c with
    | nil => intro p; simp
    | cons a t ih =>
      intro p
      cases p with
      | nil => simp
      | cons b q =>
        simp only [List.zipWith_cons_cons, List.sum_cons]
        have h1 : 0 ≤ calculateDistance a b := Real.sqrt_nonneg _
        have h2 := ih q
        linarith
  exact div_nonneg (h c p) (by positivity)

/-- Claim C3 amended: for every two-hand classification frame with a stored
previous observation, the stability fed to the classifier equals
`clamp(1 - 10 × avgMovement, 0, 1)` where `avgMovement` is the mean of the
two hands' average point-wise displacements — a single clamp applied after
averaging the two movements (the upper clamp is vacuous since movements are
non-negative), not the mean of two per-slot clamped stillness scores. -/
theorem stability_clamp_after_averaging (hands : List Hand) (prev : PrevHands)
    (m : GestureMetrics) (hl : hands.length = 2)
    (hm : (detectBasicGesture hands (some prev)).1.metrics = some m) :
    m.stability = min 1 (max 0 (1 -
      (calculateHandMovement (hands.getD 0 []) prev.left +
        calculateHandMovement (hands.getD 1 []) prev.right) / 2 * 10)) := by
  simp only [detectBasicGesture, if_pos hl, Option.some.injEq] at hm
  subst hm
  simp only [calculateHandStability]
  have hL := calculateHandMovement_nonneg (hands.getD 0 []) prev.left
  have hR := calculateHandMovement_nonneg (hands.getD 1 []) prev.right
  have h1 : max 0 (1 -
      (calculateHandMovement (hands.getD 0 []) prev.left +
        calculateHandMovement (hands.getD 1 []) prev.right) / 2 * 10) ≤ 1 := by
    apply max_le (by norm_num)
    nlinarith
  exact (min_eq_right h1).symm

/-- Witness for the amended C3 at the all-origin two-hand frame: the
stability fed to the classifier is 1 and the clamp formula also yields 1. -/
theorem stability_clamp_after_averaging_witness :
    handsPair.length = 2 ∧
    (detectBasicGesture handsPair (some prevZero)).1.metrics = some ⟨0, 0, 1⟩ ∧
    (1:ℝ) = min 1 (max 0 (1 - (calculateHandMovement handZero handZero +
      calculateHandMovement handZero handZero) / 2 * 10)) := by
  have hl : handsPair.length = 2 := rfl
  have hm : (detectBasicGesture handsPair (some prevZero)).1.metrics = some ⟨0, 0, 1⟩ := by
    rw [eval_detect_second]
  exact ⟨hl, hm, stability_clamp_after_averaging handsPair prevZero ⟨0, 0, 1⟩ hl hm⟩

lemma handsPair_length : handsPair.length = 2 := rfl

lemma procStep_first :
    processGestures handsPair 0 initialTracker =
      (⟨⟨false, 0, some ⟨0, 0, 0.5⟩, 0, none⟩, some prevZero⟩, false) := by
  norm_num [processGestures, handsPair_length, eval_detect_first, initialTracker]

lemma procStep_drop (gs : GestureState) :
    processGestures [] 33 ⟨gs, some prevZero⟩ =
      (⟨⟨false, 0, none, 33, none⟩, some prevZero⟩, false) := by
  norm_num [processGestures]

lemma procStep_trigger (now : ℤ) (gs : GestureState) :
    processGestures handsPair now ⟨gs, some prevZero⟩ =
      (⟨⟨true, 1, some ⟨0, 0, 1⟩, now, some now⟩, some prevZero⟩, true) := by
  norm_num [processGestures, handsPair_length, eval_detect_second]

/-- Claim C1 (code bug): the cooldown is not enforced. Each two-hand frame
assigns a fresh object to `this.gestureState`, losing the `lastTrigger`
written on the previous frame, so the cooldown test always sees an unset
timestamp. Concretely: frames of the all-origin two-hand pose at
`now = 0, 33, 66` ms fire a spawn on BOTH of the two consecutive
high-confidence frames (33 and 66), which are 33 ms < 3000 ms apart —
contradicting "at most one spawn event in any 3000 ms window". -/
theorem spawn_fires_twice_within_window :
    (processGestures handsPair 33 (processGestures handsPair 0 initialTracker).1).2 = true ∧
    (processGestures handsPair 66
      (processGestures handsPair 33 (processGestures handsPair 0 initialTracker).1).1).2 = true ∧
    (66:ℤ) - 33 < 3000 := by
  rw [procStep_first]
  rw [procStep_trigger 33]
  rw [procStep_trigger 66]
  exact ⟨rfl, rfl, by norm_num⟩

/-- Counterexample to C6 as stated: after a two-hand frame, a zero-hand
frame, and the same two-hand pose again, the classification computes
stillness 1 against the stale pre-drop observation instead of the neutral
0.5 a fresh first frame would give: the hand-drop branch leaves
`this.previousHands` untouched. -/
theorem stale_history_after_hand_drop :
    ((processGestures handsPair 66
        (processGestures [] 33
          (processGestures handsPair 0 initialTracker).1).1).1.gestureState.metrics =
      some ⟨0, 0, 1⟩) ∧ (1:ℝ) ≠ 0.5 := by
  rw [procStep_first, procStep_drop, procStep_trigger 66]
  exact ⟨rfl, by norm_num⟩

/-- Claim C6 amended: a frame with fewer than two hands leaves the stored
previous-hand observations untouched — they are neither cleared nor ignored
— so the next two-hand classification computes stillness against the stale
pre-drop observation via the stored pair; the neutral 0.5 arises only when
no observation was ever stored. -/
theorem hand_drop_keeps_history (hands : List Hand) (now : ℤ) (st : TrackerState)
    (h : hands.length ≠ 2) :
    (processGestures hands now st).1.previousHands = st.previousHands ∧
    (∀ leftHand rightHand : Hand,
      calculateHandStability leftHand rightHand none = (0.5, some ⟨leftHand, rightHand⟩)) ∧
    (∀ (leftHand rightHand : Hand) (prev : PrevHands),
      (calculateHandStability leftHand rightHand (some prev)).1 =
        max 0 (1 - (calculateHandMovement leftHand prev.left +
          calculateHandMovement rightHand prev.right) / 2 * 10)) := by
  refine ⟨?_, fun _ _ => rfl, fun _ _ _ => rfl⟩
  simp [processGestures, h]

/-- Witness for the amended C6 at the zero-hand frame. -/
theorem hand_drop_keeps_history_witness :
    ([] : List Hand).length ≠ 2 ∧
    (processGestures [] 5 initialTracker).1.previousHands = initialTracker.previousHands ∧
    calculateHandStability handZero handZero none = (0.5, some ⟨handZero, handZero⟩) := by
  have h := hand_drop_keeps_history [] 5 initialTracker (by decide)
  exact ⟨by decide, h.1, h.2.1 handZero handZero⟩

lemma updateParticle_age (dt : ℚ) (p : Particle) :
    (updateParticle dt p).age = p.age + dt := rfl

lemma updateParticle_maxAge (dt : ℚ) (p : Particle) :
    (updateParticle dt p).maxAge = p.maxAge := rfl

lemma updateParticle_phase (dt : ℚ) (p : Particle) :
    (updateParticle dt p).phase = phaseOf (p.age + dt) p.maxAge := rfl

lemma updateParticle_alpha (dt : ℚ) (p : Particle) :
    (updateParticle dt p).alpha = alphaOf (p.age + dt) p.maxAge := rfl

lemma phaseOf_spawning_iff (age maxAge : ℚ) :
    phaseOf age maxAge = Phase.spawning ↔ age < 500 := by
  unfold phaseOf
  split_ifs with h1 h2
  · simp [h1]
  · simpa using h1
  · simpa using h1

lemma phaseOf_floating_iff (age maxAge : ℚ) :
    phaseOf age maxAge = Phase.floating ↔ 500 ≤ age ∧ age < maxAge - 1000 := by
  unfold phaseOf
  split_ifs with h1 h2
  · simp
    intro h
    linarith
  · simp [not_lt.mp h1, h2]
  · simp [h2]

lemma phaseOf_dying_iff (age maxAge : ℚ) (hm : 1500 ≤ maxAge) :
    phaseOf age maxAge = Phase.dying ↔ maxAge - 1000 ≤ age := by
  unfold phaseOf
  split_ifs with h1 h2
  · simp
    linarith
  · simp
    linarith
  · simp [not_lt.mp h2]

lemma phaseRank_mono (a b maxAge : ℚ) (h : a ≤ b) :
    phaseRank (phaseOf a maxAge) ≤ phaseRank (phaseOf b maxAge) := by
  unfold phaseOf
  split_ifs with h1 h2 h3 h4 h5 h6 <;> simp [phaseRank] <;> linarith

lemma mem_updateParticles (dt : ℚ) (ps : List Particle) (q : Particle) :
    q ∈ updateParticles dt ps ↔
      ∃ p ∈ ps, updateParticle dt p = q ∧ q.age < q.maxAge := by
  simp only [updateParticles, List.mem_filter, List.mem_map,
    decide_eq_true_eq]
  constructor
  · rintro ⟨⟨p, hp, rfl⟩, hlt⟩
    exact ⟨p, hp, rfl, hlt⟩
  · rintro ⟨p, hp, rfl, hlt⟩
    exact ⟨⟨p, hp, rfl⟩, hlt⟩

/-- Claim C7: after every update tick each surviving particle's phase is
determined by its age — `spawning` iff `age < 500`, `floating` iff
`500 ≤ age < maxAge - 1000`, `dying` iff `age ≥ maxAge - 1000` (the
boundaries match because `maxAge ≥ 5000`); with a non-negative tick the
phase rank never regresses; and a particle survives the tick exactly when
its advanced age is still below `maxAge`. -/
theorem particle_phase_age_invariant (dt : ℚ) (ps : List Particle)
    (hdt : 0 ≤ dt) (hmax : ∀ p ∈ ps, 5000 ≤ p.maxAge) :
    (∀ q ∈ updateParticles dt ps,
      (q.phase = Phase.spawning ↔ q.age < 500) ∧
      (q.phase = Phase.floating ↔ 500 ≤ q.age ∧ q.age < q.maxAge - 1000) ∧
      (q.phase = Phase.dying ↔ q.maxAge - 1000 ≤ q.age)) ∧
    (∀ p ∈ ps, p.phase = phaseOf p.age p.maxAge →
      phaseRank p.phase ≤ phaseRank (updateParticle dt p).phase) ∧
    (∀ q, q ∈ updateParticles dt ps ↔
      ∃ p ∈ ps, updateParticle dt p = q ∧ q.age < q.maxAge) := by
  refine ⟨?_, ?_, fun q => mem_updateParticles dt ps q⟩
  · intro q hq
    obtain ⟨p, hp, rfl, _⟩ := (mem_updateParticles dt ps q).mp hq
    have hm : (1500:ℚ) ≤ p.maxAge := le_trans (by norm_num) (hmax p hp)
    refine ⟨?_, ?_, ?_⟩
    · rw [updateParticle_phase, updateParticle_age]
      exact phaseOf_spawning_iff _ _
    · rw [updateParticle_phase, updateParticle_age, updateParticle_maxAge]
      exact phaseOf_floating_iff _ _
    · rw [updateParticle_phase, updateParticle_age, updateParticle_maxAge]
      exact phaseOf_dying_iff _ _ hm
  · intro p hp hcons
    rw [hcons, updateParticle_phase]
    exact phaseRank_mono p.age (p.age + dt) p.maxAge (by linarith)

/-- Witness for C7: one 16 ms tick on a fresh particle with `maxAge = 5000`;
the survival characterization holds at the updated particle. -/
theorem particle_phase_age_invariant_witness :
    (0:ℚ) ≤ 16 ∧ (∀ p ∈ [particleZero], (5000:ℚ) ≤ p.maxAge) ∧
    (updateParticle 16 particleZero ∈ updateParticles 16 [particleZero] ↔
      ∃ p ∈ [particleZero], updateParticle 16 p = updateParticle 16 particleZero ∧
        (updateParticle 16 particleZero).age < (updateParticle 16 particleZero).maxAge) := by
  have h1 : (0:ℚ) ≤ 16 := by norm_num
  have h2 : ∀ p ∈ [particleZero], (5000:ℚ) ≤ p.maxAge := by
    intro p hp
    rw [List.mem_singleton] at hp
    rw [hp]
    norm_num [particleZero]
  exact ⟨h1, h2, (particle_phase_age_invariant 16 [particleZero] h1 h2).2.2 _⟩

/-- Claim C8: after every update tick with `maxAge ∈ [5000, 8000)`, the
surviving particle's alpha follows the age profile — `min(1, age/500)` while
spawning (hence 0 at `age = 0` and 1 by `age = 500`), constantly 1 while
floating, and `max(0, 1 - (age - (maxAge - 1000))/1000)` while dying (hence
0 by `age = maxAge`); and every particle created by the spawn operation
starts at `alpha = 0` with `age = 0`. -/
theorem particle_alpha_profile (dt : ℚ) (ps : List Particle)
    (hmax : ∀ p ∈ ps, 5000 ≤ p.maxAge ∧ p.maxAge < 8000) :
    (∀ q ∈ updateParticles dt ps,
      (q.age < 500 → q.alpha = min 1 (q.age / 500)) ∧
      (500 ≤ q.age ∧ q.age < q.maxAge - 1000 → q.alpha = 1) ∧
      (q.maxAge - 1000 ≤ q.age →
        q.alpha = max 0 (1 - (q.age - (q.maxAge - 1000)) / 1000)) ∧
      (q.age = 0 → q.alpha = 0)) ∧
    (∀ (canvasWidth canvasHeight centerX centerY scale : ℝ) (rand : ℕ → RandVals)
      (st : ParticleSystemState),
      ∀ p ∈ (spawnTigerConstellation canvasWidth canvasHeight centerX centerY
          scale rand st).particles, p.alpha = 0 ∧ p.age = 0) := by
  constructor
  · intro q hq
    obtain ⟨p, hp, rfl, _⟩ := (mem_updateParticles dt ps q).mp hq
    have hm : (5000:ℚ) ≤ p.maxAge := (hmax p hp).1
    rw [updateParticle_age, updateParticle_maxAge, updateParticle_alpha]
    set a := p.age + dt with ha
    refine ⟨?_, ?_, ?_, ?_⟩
    · intro h
      unfold alphaOf
      rw [(phaseOf_spawning_iff a p.maxAge).mpr h]
    · intro h
      unfold alphaOf
      rw [(phaseOf_floating_iff a p.maxAge).mpr h]
    · intro h
      unfold alphaOf
      rw [(phaseOf_dying_iff a p.maxAge (by linarith)).mpr h]
    · intro h
      unfold alphaOf
      rw [(phaseOf_spawning_iff a p.maxAge).mpr (by rw [h]; norm_num)]
      rw [h]
      norm_num
  · intro cw ch cx cy sc rand st p hp
    have key : ∀ (sx sy psc : ℝ) (i : ℕ) (pts : List Pt2),
        ∀ q ∈ spawnParticles sx sy psc rand i pts, q.alpha = 0 ∧ q.age = 0 := by
      intro sx sy psc i pts
      induction pts generalizing i with
      | nil => intro q hq; cases hq
      | cons a t ih =>
          intro q hq
          rw [spawnParticles, List.mem_cons] at hq
          rcases hq with rfl | hq
          · exact ⟨rfl, rfl⟩
          · exact ih (i + 1) q hq
    exact key _ _ _ 0 tigerTemplate p hp

/-- Witness for C8: one 16 ms tick on a fresh particle with `maxAge = 5000`;
the updated age is 16 < 500, so the theorem gives `alpha = min(1, 16/500)`. -/
theorem particle_alpha_profile_witness :
    (∀ p ∈ [particleZero], (5000:ℚ) ≤ p.maxAge ∧ p.maxAge < 8000) ∧
    ((updateParticle 16 particleZero).age < 500 →
      (updateParticle 16 particleZero).alpha =
        min 1 ((updateParticle 16 particleZero).age / 500)) := by
  have h2 : ∀ p ∈ [particleZero], (5000:ℚ) ≤ p.maxAge ∧ p.maxAge < 8000 := by
    intro p hp
    rw [List.mem_singleton] at hp
    rw [hp]
    norm_num [particleZero]
  have hmem : updateParticle 16 particleZero ∈ updateParticles 16 [particleZero] := by
    rw [mem_updateParticles]
    refine ⟨particleZero, List.mem_singleton.mpr rfl, rfl, ?_⟩
    rw [updateParticle_age, updateParticle_maxAge]
    norm_num [particleZero]
  exact ⟨h2, ((particle_alpha_profile 16 [particleZero] h2).1 _ hmem).1⟩

lemma spawnParticles_length (sx sy psc : ℝ) (rand : ℕ → RandVals) :
    ∀ (i : ℕ) (pts : List Pt2),
      (spawnParticles sx sy psc rand i pts).length = pts.length := by
  intro i pts
  induction pts generalizing i with
  | nil => rfl
  | cons a t ih => simp [spawnParticles, ih]

/-- Claim C9: every call of the spawn operation replaces the live particle
set — whatever it held before — with exactly one particle per template
anchor point (the template has 43 points), and every created particle
starts at `alpha = 0`. -/
theorem spawn_one_particle_per_template_point (canvasWidth canvasHeight : ℝ)
    (centerX centerY scale : ℝ) (rand : ℕ → RandVals) (st : ParticleSystemState) :
    (spawnTigerConstellation canvasWidth canvasHeight centerX centerY scale rand
        st).particles.length = tigerTemplate.length ∧
    tigerTemplate.length = 43 ∧
    (∀ p ∈ (spawnTigerConstellation canvasWidth canvasHeight centerX centerY scale
        rand st).particles, p.alpha = 0) := by
  refine ⟨spawnParticles_length _ _ _ _ 0 tigerTemplate, rfl, ?_⟩
  intro p hp
  have key : ∀ (sx sy psc : ℝ) (i : ℕ) (pts : List Pt2),
      ∀ q ∈ spawnParticles sx sy psc rand i pts, q.alpha = 0 := by
    intro sx sy psc i pts
    induction pts generalizing i with
    | nil => intro q hq; cases hq
    | cons a t ih =>
        intro q hq
        rw [spawnParticles, List.mem_cons] at hq
        rcases hq with rfl | hq
        · rfl
        · exact ih (i + 1) q hq
  exact key _ _ _ 0 tigerTemplate p hp
